import Mathlib

/-!
Shallow embedding of the chat backend's session-memory service, completion
client, file service and upload handler, together with theorems checking the
specification's claims against it.

Sources embedded: `src/functions/memory_functions.py`,
`src/functions/llm_functions.py`, `src/functions/file_functions.py`,
`src/models/schemas.py`, `src/config/settings.py`, `src/api/routes.py`.
-/

namespace ChatApp

/-- Abstract instants standing for Python `datetime` values.  Only ordering
and equality of timestamps matter to the code under study. -/
abbrev Timestamp := Nat

/-- Model of Python `str.split('.')` at the character level: splitting on
every dot, keeping empty pieces, and never returning an empty list. -/
def splitOnDot : List Char → List (List Char)
  | [] => [[]]
  | c :: rest =>
      let r := splitOnDot rest
      if c = '.' then [] :: r
      else (c :: r.headD []) :: r.tail

/-- Model of Python `str.lower()`; character-wise ASCII lowering, which is
all the code relies on for extension matching. -/
def pyLower (s : String) : String := ⟨s.data.map Char.toLower⟩

/-- Model of Python `str.strip()` with no arguments: removes leading and
trailing whitespace. -/
def pyStrip (s : String) : String :=
  ⟨((s.data.dropWhile Char.isWhitespace).reverse.dropWhile
      Char.isWhitespace).reverse⟩

/-- Model of the Python prefix slice `s[:n]`. -/
def pySlice (s : String) (n : Nat) : String := ⟨s.data.take n⟩

/-- Model of `ChatMessage` from `models/schemas.py`: the `role` field is an
unconstrained string (`role : str`), not an enum. -/
structure ChatMessage where
  role : String
  content : String
  timestamp : Timestamp
deriving Repr, DecidableEq

/-- Model of the LangChain messages stored inside a checkpoint.  Only the
constructor (`HumanMessage` versus `AIMessage`) and the content are kept by
the code; in particular no timestamp is persisted. -/
inductive LCMessage where
  | human (content : String)
  | ai (content : String)
deriving Repr, DecidableEq

/-- Model of the checkpoint record written by
`MemoryService.create_session`: fields `v`, `id`, `ts` and
`channel_values.messages`.  The `channel_versions` and `versions_seen`
dictionaries are created empty and never read or written afterwards, so
they are omitted.  `ts` models the `isoformat()` string. -/
structure Checkpoint where
  v : Nat
  id : String
  ts : String
  messages : List LCMessage
deriving Repr, DecidableEq

/-- Model of the sqlite checkpoint store (`utils/utils.py`,
`langgraph` `SqliteSaver`): a put inserts a new record for the key and a
get returns the most recent one, so the newest checkpoint wins, matching
the overwrite semantics the service relies on. -/
abbrev Store := List (String × Checkpoint)

/-- Latest checkpoint stored for a session id, if any (`self.memory.get`). -/
def Store.get : Store → String → Option Checkpoint
  | [], _ => none
  | (k, cp) :: rest, sid => if k = sid then some cp else Store.get rest sid

/-- Model of `self.memory.put`.  The `fail` flag is the oracle deciding
whether this particular write raises.  On failure the error value carries
the store unchanged: the sqlite put either commits the whole record or
raises before committing, so a failed write leaves the previous state
visible. -/
def Store.put (st : Store) (sid : String) (cp : Checkpoint) (fail : Bool) :
    Except Store Store :=
  if fail then .error st else .ok ((sid, cp) :: st)

namespace MemoryService

/-- Model of `MemoryService._convert_to_langchain_message`: role `"user"`
gives a `HumanMessage`, every other role an `AIMessage`. -/
def convert_to_langchain_message (m : ChatMessage) : LCMessage :=
  if m.role = "user" then .human m.content else .ai m.content

/-- Model of `MemoryService._convert_from_langchain_message`: a
`HumanMessage` comes back with role `"user"`, everything else with role
`"assistant"`, and the timestamp is freshly taken (`datetime.now()`) at
conversion time, here the parameter `now`. -/
def convert_from_langchain_message (now : Timestamp) : LCMessage → ChatMessage
  | .human c => ⟨"user", c, now⟩
  | .ai c => ⟨"assistant", c, now⟩

/-- Model of `MemoryService.create_session`: writes a fresh checkpoint with
an empty message list; `cid` and `ts` are the fresh `uuid4` and timestamp
drawn by the call.  A store failure propagates. -/
def create_session (st : Store) (sid : String) (cid ts : String) (fail : Bool) :
    Except Store Store :=
  Store.put st sid ⟨1, cid, ts, []⟩ fail

/-- Model of `MemoryService.save_message`.  Loads the checkpoint, creating
one first when absent (the warning-logged self-healing branch), appends the
converted message, renews `id` and `ts`, and writes back.  `cid₁ ts₁` are
the fresh metadata drawn by the inner `create_session`, `cid₂ ts₂` the ones
assigned before the final put; `fail₁` and `fail₂` are the two writes'
failure oracles.  Any store error propagates to the caller unretried. -/
def save_message (st : Store) (sid : String) (m : ChatMessage)
    (cid₁ ts₁ cid₂ ts₂ : String) (fail₁ fail₂ : Bool) : Except Store Store :=
  match Store.get st sid with
  | some cp =>
      Store.put st sid
        { cp with messages := cp.messages ++ [convert_to_langchain_message m],
                  id := cid₂, ts := ts₂ } fail₂
  | none =>
      match create_session st sid cid₁ ts₁ fail₁ with
      | .error st' => .error st'
      | .ok st' =>
          match Store.get st' sid with
          | some cp =>
              Store.put st' sid
                { cp with messages := cp.messages ++ [convert_to_langchain_message m],
                          id := cid₂, ts := ts₂ } fail₂
          | none => .error st'

/-- Model of `MemoryService.get_chat_history`: empty list when the session
is absent, otherwise the stored messages converted back, each stamped with
the retrieval-time `now`. -/
def get_chat_history (st : Store) (sid : String) (now : Timestamp) :
    List ChatMessage :=
  match Store.get st sid with
  | none => []
  | some cp => cp.messages.map (convert_from_langchain_message now)

/-- Model of the Python slice `messages[-k:]` for a nonnegative `k`: for
`k = 0` the slice `[-0:]` is `[0:]`, the whole list; otherwise it is the
last `k` elements. -/
def pyTailSlice (k : Nat) (xs : List α) : List α :=
  if k = 0 then xs else xs.drop (xs.length - k)

/-- Model of a message forwarded to the provider and of the entries built
by `get_conversation_context`: a `role` and `content` dictionary. -/
structure Msg where
  role : String
  content : String
deriving Repr, DecidableEq

/-- Model of `MemoryService.get_conversation_context`: takes
`messages[-max_messages:]` when the history is longer than `max_messages`,
otherwise the whole history, and strips each entry to role and content. -/
def get_conversation_context (st : Store) (sid : String) (now : Timestamp)
    (max_messages : Nat) : List Msg :=
  let messages := get_chat_history st sid now
  let recent :=
    if messages.length > max_messages then pyTailSlice max_messages messages
    else messages
  recent.map (fun m => ⟨m.role, m.content⟩)

/-- Model of `MemoryService.clear_session`: when the session exists its
message list is overwritten with the empty list under fresh `id`/`ts`
metadata; when it does not exist nothing happens and no error is raised. -/
def clear_session (st : Store) (sid : String) (cid ts : String) (fail : Bool) :
    Except Store Store :=
  match Store.get st sid with
  | some cp =>
      Store.put st sid { cp with messages := [], id := cid, ts := ts } fail
  | none => .ok st

/-- Model of `MemoryService.session_exists`: a checkpoint record exists. -/
def session_exists (st : Store) (sid : String) : Bool :=
  (Store.get st sid).isSome

/-- Model of `SessionInfo` from `models/schemas.py`. -/
structure SessionInfo where
  session_id : String
  created_at : Timestamp
  last_activity : Timestamp
  message_count : Nat
deriving Repr, DecidableEq

/-- Model of `MemoryService.get_session_info`: `none` when the session is
absent; for an empty history both timestamps default to the call-time
`now`; otherwise the minimum and maximum message timestamp and the count. -/
def get_session_info (st : Store) (sid : String) (now : Timestamp) :
    Option SessionInfo :=
  if session_exists st sid then
    match get_chat_history st sid now with
    | [] => some ⟨sid, now, now, 0⟩
    | m :: ms =>
        some ⟨sid,
          ms.foldl (fun a x => min a x.timestamp) m.timestamp,
          ms.foldl (fun a x => max a x.timestamp) m.timestamp,
          (m :: ms).length⟩
  else none

/-- Messages currently stored for a session (empty when absent); a
convenience projection for stating properties of the store. -/
def messagesOf (st : Store) (sid : String) : List LCMessage :=
  match Store.get st sid with
  | none => []
  | some cp => cp.messages

/-- Sequence of successful `save_message` calls on one session, each call
consuming its own fresh checkpoint metadata; an error would
short-circuit, but with the failure oracles at `false` every call
succeeds. -/
def save_all : Store → String →
    List (ChatMessage × String × String × String × String) → Except Store Store
  | st, _, [] => .ok st
  | st, sid, (m, c₁, t₁, c₂, t₂) :: rest =>
      match save_message st sid m c₁ t₁ c₂ t₂ false false with
      | .error st' => .error st'
      | .ok st' => save_all st' sid rest

end MemoryService

export MemoryService (Msg)

/-- Outcome of a service call that either returns a string or raises an
`HTTPException` with a status code and detail string. -/
inductive HttpResult where
  | ok (value : String)
  | httpError (status : Nat) (detail : String)
deriving Repr, DecidableEq

/-- Status code of a raised `HTTPException`, `none` on success. -/
def HttpResult.status? : HttpResult → Option Nat
  | .ok _ => none
  | .httpError code _ => some code

/-- Model of the configuration fields of `config/settings.py` consulted by
the code under study.  The provider credentials, base url, model name and
the floating-point temperature never influence the modelled control flow
and are omitted. -/
structure Settings where
  max_context_length : Nat
  upload_max_size : Nat
  allowed_extensions : List String
deriving Repr, DecidableEq

/-- Default values of `Settings` in `config/settings.py`. -/
def settings : Settings := ⟨3000, 10 * 1024 * 1024, ["txt", "pdf"]⟩

namespace LLMService

/-- Fixed system instruction prepended by `LLMService.generate_response`. -/
def system_prompt : String :=
  "You are an expert assistant. Always provide answers in markdown format."

/-- Model of the `if context:` block of `generate_response`: Python
truthiness makes both `None` and the empty string skip the extra system
entry. -/
def context_block : Option String → List Msg
  | none => []
  | some c => if c = "" then [] else [⟨"system", "Context information:\n" ++ c⟩]

/-- Message list `generate_response` submits to the completion endpoint:
the fixed system instruction, then the optional context entry, then the
caller's conversation history. -/
def formatted_messages (messages : List Msg) (context : Option String) :
    List Msg :=
  ⟨"system", system_prompt⟩ :: (context_block context ++ messages)

/-- Behaviour of the external completion endpoint on one request: it
returns a completion whose content may be `None`, or raises an
`OpenAIError` carrying a message. -/
inductive ProviderBehavior where
  | returns (content : Option String)
  | fails (message : String)

/-- Model of `LLMService.generate_response`: builds the formatted message
list, consults the provider, maps a provider error to a 500, a `None`
content to the empty-response 500, and otherwise returns the content. -/
def generate_response (provider : List Msg → ProviderBehavior)
    (messages : List Msg) (context : Option String) : HttpResult :=
  match provider (formatted_messages messages context) with
  | .fails e => .httpError 500 ("NVIDIA API error: " ++ e)
  | .returns none => .httpError 500 "Empty response from API"
  | .returns (some s) => .ok s

/-- The single user turn `generate_context_response` builds from the
document context and the question. -/
def context_user_turn (context question : String) : Msg :=
  ⟨"user", "Context:\n" ++ context ++ "\n\nQuestion: " ++ question⟩

/-- Model of `LLMService.generate_context_response`: wraps context and
question into one user turn and calls `generate_response` with its
`context` parameter left at its default `None`. -/
def generate_context_response (provider : List Msg → ProviderBehavior)
    (context question : String) : HttpResult :=
  generate_response provider [context_user_turn context question] none

/-- Message list the document-QA path sends to the provider, obtained by
unfolding `generate_context_response` into `generate_response`. -/
def context_response_messages (context question : String) : List Msg :=
  formatted_messages [context_user_turn context question] none

end LLMService

/-- Model of an uploaded file: its declared filename and raw bytes.  The
handler measures size by seeking to the end, which equals the byte
length. -/
structure UploadedFile where
  filename : String
  bytes : List Nat
deriving Repr, DecidableEq

namespace FileService

/-- Model of `FileService.extract_text_from_txt`: the external UTF-8
decoder is the parameter `decode`; a decode failure becomes a 400. -/
def extract_text_from_txt (decode : List Nat → Option String)
    (bytes : List Nat) : HttpResult :=
  match decode bytes with
  | none => .httpError 400 "Failed to extract text from TXT file"
  | some s => .ok s

/-- Model of `FileService.extract_text_from_pdf`: the external PDF reader
is the parameter `pdfPages`, yielding per-page extracted text where `none`
stands for a page with no text (`page.extract_text() or ""`); the pages
are concatenated and stripped.  A reader failure becomes a 400. -/
def extract_text_from_pdf (pdfPages : List Nat → Option (List (Option String)))
    (bytes : List Nat) : HttpResult :=
  match pdfPages bytes with
  | none => .httpError 400 "Failed to extract text from PDF"
  | some pages => .ok (pyStrip (String.join (pages.map (fun p => p.getD ""))))

/-- Model of `file.filename.lower().split('.')[-1]`.  Python's `split`
never returns an empty list, so the `[-1]` index is total. -/
def file_extension (filename : String) : String :=
  (((splitOnDot (pyLower filename).data).map
    (fun cs => (⟨cs⟩ : String)))).getLastD ""

/-- Model of `FileService.extract_text`: filename presence, the size
bound, and the extension allow-list are checked in that order before any
extraction function runs. -/
def extract_text (decode : List Nat → Option String)
    (pdfPages : List Nat → Option (List (Option String)))
    (s : Settings) (file : UploadedFile) : HttpResult :=
  if file.filename = "" then .httpError 400 "No filename provided."
  else if file.bytes.length > s.upload_max_size then
    .httpError 400
      ("File too large. Maximum size: " ++ toString s.upload_max_size ++ " bytes")
  else
    let extension := file_extension file.filename
    if extension ∉ s.allowed_extensions then
      .httpError 400
        ("Unsupported file type. Only " ++
          String.intercalate ", " s.allowed_extensions ++ " are allowed.")
    else if extension = "txt" then extract_text_from_txt decode file.bytes
    else if extension = "pdf" then extract_text_from_pdf pdfPages file.bytes
    else .httpError 400 "Unsupported file type."

/-- Model of `FileService.truncate_context` with the `max_length` argument
left at its default, `settings.max_context_length`: a character-count
prefix. -/
def truncate_context (s : Settings) (text : String) : String :=
  pySlice text s.max_context_length

end FileService

namespace Routes

/-- Observable outcome of one run of the upload handler: the HTTP status,
the answer (on 200) and error detail otherwise, the final store state, and
as instrumentation for stating provider-interaction properties, whether
the completion provider was consulted and with which message list. -/
structure UploadResult where
  status : Nat
  answer : Option String
  detail : Option String
  store : Store
  provider_called : Bool
  provider_messages : Option (List Msg)
deriving Repr, DecidableEq

/-- Detail string of the 500 raised when a store operation throws inside
the handler; it stands for the unmodelled `str(e)` text. -/
def store_error_detail : String := "store error"

/-- Model of the `upload_file` handler in `api/routes.py`.  `fresh_sid` is
the `uuid4` drawn when no session id is supplied; `cC tC` the fresh
metadata of the ensure-session `create_session`; `cU₁ tU₁ cU₂ tU₂` and
`cA₁ tA₁ cA₂ tA₂` the metadata consumed by the two `save_message` calls
(their create-on-write branch is unreachable here because the session is
ensured first); `failC`, `failU`, `failA` the failure oracles of the three
store writes.  A raised `HTTPException` propagates with its status and
detail; any other exception becomes a 500. -/
def upload_file (decode : List Nat → Option String)
    (pdfPages : List Nat → Option (List (Option String)))
    (s : Settings) (provider : List Msg → LLMService.ProviderBehavior)
    (st : Store) (file : UploadedFile) (question : String)
    (session_id : Option String) (fresh_sid : String) (now : Timestamp)
    (cC tC cU₁ tU₁ cU₂ tU₂ cA₁ tA₁ cA₂ tA₂ : String)
    (failC failU failA : Bool) : UploadResult :=
  let sid := session_id.getD fresh_sid
  let ensured : Except Store Store :=
    if MemoryService.session_exists st sid then .ok st
    else MemoryService.create_session st sid cC tC failC
  match ensured with
  | .error st' => ⟨500, none, some store_error_detail, st', false, none⟩
  | .ok st₁ =>
    match FileService.extract_text decode pdfPages s file with
    | .httpError code d => ⟨code, none, some d, st₁, false, none⟩
    | .ok text =>
      if pyStrip text = "" then
        ⟨400, none, some "No text could be extracted from the file.", st₁,
          false, none⟩
      else
        let truncated := FileService.truncate_context s text
        let user_message : ChatMessage :=
          ⟨"user", "[Uploaded file: " ++ file.filename ++ "] " ++ question, now⟩
        match MemoryService.save_message st₁ sid user_message
            cU₁ tU₁ cU₂ tU₂ failU failU with
        | .error st' => ⟨500, none, some store_error_detail, st', false, none⟩
        | .ok st₂ =>
          let pm := LLMService.context_response_messages truncated question
          match LLMService.generate_context_response provider truncated question with
          | .httpError code d => ⟨code, none, some d, st₂, true, some pm⟩
          | .ok response_content =>
            let assistant_message : ChatMessage :=
              ⟨"assistant", response_content, now⟩
            match MemoryService.save_message st₂ sid assistant_message
                cA₁ tA₁ cA₂ tA₂ failA failA with
            | .error st' => ⟨500, none, some store_error_detail, st', true, some pm⟩
            | .ok st₃ => ⟨200, some response_content, none, st₃, true, some pm⟩

/-- Store-independent part of an upload outcome: everything the caller and
the provider observe, leaving out the final store state. -/
def UploadResult.observable (r : UploadResult) :
    Nat × Option String × Option String × Bool × Option (List Msg) :=
  (r.status, r.answer, r.detail, r.provider_called, r.provider_messages)

/-- Outcome the upload handler produces as a function of the request data
alone, with no store argument; `upload_observable_eq` below proves that
with reliable store writes the handler's observable outcome equals this
for every starting store, which is the content of the history-independence
claim. -/
def upload_outcome (decode : List Nat → Option String)
    (pdfPages : List Nat → Option (List (Option String)))
    (s : Settings) (provider : List Msg → LLMService.ProviderBehavior)
    (file : UploadedFile) (question : String) :
    Nat × Option String × Option String × Bool × Option (List Msg) :=
  match FileService.extract_text decode pdfPages s file with
  | .httpError code d => (code, none, some d, false, none)
  | .ok text =>
    if pyStrip text = "" then
      (400, none, some "No text could be extracted from the file.", false, none)
    else
      let truncated := FileService.truncate_context s text
      let pm := LLMService.context_response_messages truncated question
      match LLMService.generate_context_response provider truncated question with
      | .httpError code d => (code, none, some d, true, some pm)
      | .ok content => (200, some content, none, true, some pm)

end Routes

namespace MemoryService

lemma convert_roundtrip (now : Timestamp) (m : ChatMessage) :
    convert_from_langchain_message now (convert_to_langchain_message m) =
      ⟨if m.role = "user" then "user" else "assistant", m.content, now⟩ := by
  by_cases h : m.role = "user" <;>
    simp [convert_to_langchain_message, convert_from_langchain_message, h]

lemma get_chat_history_messagesOf (st : Store) (sid : String) (now : Timestamp) :
    get_chat_history st sid now =
      (messagesOf st sid).map (convert_from_langchain_message now) := by
  unfold get_chat_history messagesOf
  cases Store.get st sid <;> simp

lemma save_message_existing (st : Store) (sid : String) (m : ChatMessage)
    (cid₁ ts₁ cid₂ ts₂ : String) (cp : Checkpoint)
    (h : Store.get st sid = some cp) :
    save_message st sid m cid₁ ts₁ cid₂ ts₂ false false =
      .ok ((sid, ⟨cp.v, cid₂, ts₂,
        cp.messages ++ [convert_to_langchain_message m]⟩) :: st) := by
  simp [save_message, h, Store.put]

lemma save_message_absent (st : Store) (sid : String) (m : ChatMessage)
    (cid₁ ts₁ cid₂ ts₂ : String) (h : Store.get st sid = none) :
    save_message st sid m cid₁ ts₁ cid₂ ts₂ false false =
      .ok ((sid, ⟨1, cid₂, ts₂, [convert_to_langchain_message m]⟩) ::
        (sid, ⟨1, cid₁, ts₁, []⟩) :: st) := by
  simp [save_message, h, create_session, Store.put, Store.get]

lemma save_message_ok_messages (st : Store) (sid : String) (m : ChatMessage)
    (cid₁ ts₁ cid₂ ts₂ : String) :
    ∃ st', save_message st sid m cid₁ ts₁ cid₂ ts₂ false false = .ok st' ∧
      messagesOf st' sid =
        messagesOf st sid ++ [convert_to_langchain_message m] ∧
      session_exists st' sid = true := by
  cases h : Store.get st sid with
  | some cp =>
      refine ⟨_, save_message_existing st sid m cid₁ ts₁ cid₂ ts₂ cp h, ?_, ?_⟩
      · simp [messagesOf, Store.get, h]
      · simp [session_exists, Store.get]
  | none =>
      refine ⟨_, save_message_absent st sid m cid₁ ts₁ cid₂ ts₂ h, ?_, ?_⟩
      · simp [messagesOf, Store.get, h]
      · simp [session_exists, Store.get]

lemma save_all_messagesOf (sid : String)
    (items : List (ChatMessage × String × String × String × String)) :
    ∀ st : Store, ∃ st', save_all st sid items = .ok st' ∧
      messagesOf st' sid = messagesOf st sid ++
        items.map (fun it => convert_to_langchain_message it.1) := by
  induction items with
  | nil => intro st; exact ⟨st, rfl, by simp⟩
  | cons it rest ih =>
      intro st
      obtain ⟨m, c₁, t₁, c₂, t₂⟩ := it
      obtain ⟨st₁, h₁, h₂, _⟩ := save_message_ok_messages st sid m c₁ t₁ c₂ t₂
      obtain ⟨st', h₃, h₄⟩ := ih st₁
      refine ⟨st', ?_, ?_⟩
      · simp [save_all, h₁, h₃]
      · simp [h₄, h₂]

end MemoryService

open MemoryService in
/-- C1 (counterexample): one successful `save_message` of a message with
role `"system"` and timestamp `0` on a fresh session, read back at time
`1`, yields a message whose role was collapsed to `"assistant"` and whose
timestamp is the retrieval time — not the saved message, so the history is
not "those N messages with the same role, content and timestamp". -/
theorem c1_counterexample :
    (save_message [] "s" ⟨"system", "hi", 0⟩ "c1" "t1" "c2" "t2"
        false false).toOption.map (fun st => get_chat_history st "s" 1) =
      some [⟨"assistant", "hi", 1⟩] ∧
    (⟨"assistant", "hi", 1⟩ : ChatMessage) ≠ ⟨"system", "hi", 0⟩ := by
  decide

open MemoryService in
/-- C1 (amended): for every sequence of successful `save_message` calls on
a session whose stored message list starts empty, `get_chat_history`
returns exactly one message per call, in call order, with the same
content; the role is preserved for `"user"` and collapsed to
`"assistant"` otherwise, and every returned timestamp is the
retrieval-time clock value, not the saved one. -/
theorem c1_history_round_trip (st : Store) (sid : String)
    (items : List (ChatMessage × String × String × String × String))
    (now : Timestamp) (h : messagesOf st sid = []) :
    Except.map (fun st' => get_chat_history st' sid now)
        (save_all st sid items) =
      .ok (items.map (fun it =>
        (⟨if it.1.role = "user" then "user" else "assistant",
          it.1.content, now⟩ : ChatMessage))) := by
  obtain ⟨st', h₁, h₂⟩ := save_all_messagesOf sid items st
  rw [h₁]
  show Except.ok (get_chat_history st' sid now) = _
  rw [get_chat_history_messagesOf, h₂, h]
  simp [convert_roundtrip]

open MemoryService in
/-- Witness for C1 (amended) at a concrete two-message sequence. -/
theorem c1_history_round_trip_witness :
    Except.map (fun st' => get_chat_history st' "s" 7)
        (save_all [] "s"
          [(⟨"user", "a", 0⟩, "c1", "t1", "c2", "t2"),
           (⟨"system", "b", 3⟩, "c3", "t3", "c4", "t4")]) =
      .ok [⟨"user", "a", 7⟩, ⟨"assistant", "b", 7⟩] :=
  (c1_history_round_trip [] "s"
    [(⟨"user", "a", 0⟩, "c1", "t1", "c2", "t2"),
     (⟨"system", "b", 3⟩, "c3", "t3", "c4", "t4")] 7 rfl).trans (by rfl)

open MemoryService in
/-- C3 (counterexample): with one stored message and `k = 0`,
`get_conversation_context` returns the whole one-element history (the
Python slice `[-0:]` is the full list), not `min(0, 1) = 0` messages. -/
theorem c3_counterexample :
    get_conversation_context [("s", ⟨1, "c", "t", [LCMessage.human "hi"]⟩)]
        "s" 0 0 = [⟨"user", "hi"⟩] ∧
    get_conversation_context [("s", ⟨1, "c", "t", [LCMessage.human "hi"]⟩)]
        "s" 0 0 ≠ [] := by
  decide

open MemoryService in
/-- C3 (amended): for every `k ≥ 1`, `get_conversation_context` returns
exactly the last `min(k, history length)` messages of `get_chat_history`,
in original order, each reduced to role and content; for `k = 0` the
whole history is returned instead. -/
theorem c3_context_window (st : Store) (sid : String) (now : Timestamp)
    (k : Nat) (hk : 1 ≤ k) :
    get_conversation_context st sid now k =
      ((get_chat_history st sid now).drop
          ((get_chat_history st sid now).length - k)).map
        (fun m => (⟨m.role, m.content⟩ : Msg)) ∧
    (get_conversation_context st sid now k).length =
      min k (get_chat_history st sid now).length := by
  have hk0 : k ≠ 0 := by omega
  by_cases hl : (get_chat_history st sid now).length > k
  · constructor
    · simp [get_conversation_context, pyTailSlice, hl, hk0]
    · simp [get_conversation_context, pyTailSlice, hl, hk0]
      omega
  · have h0 : (get_chat_history st sid now).length - k = 0 := by omega
    constructor
    · simp [get_conversation_context, pyTailSlice, hl, h0]
    · simp [get_conversation_context, pyTailSlice, hl, h0]
      omega

open MemoryService in
/-- Witness for C3 (amended) at `k = 2` over a three-message history. -/
theorem c3_context_window_witness :
    get_conversation_context
        [("s", ⟨1, "c", "t",
          [LCMessage.human "a", LCMessage.ai "b", LCMessage.human "x"]⟩)]
        "s" 0 2 = [⟨"assistant", "b"⟩, ⟨"user", "x"⟩] ∧
    (get_conversation_context
        [("s", ⟨1, "c", "t",
          [LCMessage.human "a", LCMessage.ai "b", LCMessage.human "x"]⟩)]
        "s" 0 2).length = 2 := by
  have h := c3_context_window
    [("s", ⟨1, "c", "t",
      [LCMessage.human "a", LCMessage.ai "b", LCMessage.human "x"]⟩)]
    "s" 0 2 (by decide)
  exact ⟨h.1.trans (by decide), h.2.trans (by decide)⟩

open MemoryService in
/-- C4: clearing an existing session empties its message list while
keeping the session in existence under renewed checkpoint id and
timestamp, after which `get_chat_history` is empty and `get_session_info`
reports zero messages; clearing an absent session leaves the store
untouched and raises no error (for any write-failure oracle, since no
write happens). -/
theorem c4_clear_session (st : Store) (sid : String) (cid ts : String)
    (now : Timestamp) (fail : Bool) :
    (∀ cp, Store.get st sid = some cp →
      Except.map (fun st' =>
          (get_chat_history st' sid now, get_session_info st' sid now,
            session_exists st' sid, Store.get st' sid))
        (clear_session st sid cid ts false) =
        .ok ([], some ⟨sid, now, now, 0⟩, true,
          some { cp with messages := [], id := cid, ts := ts })) ∧
    (Store.get st sid = none → clear_session st sid cid ts fail = .ok st) := by
  constructor
  · intro cp h
    simp [clear_session, h, Store.put, Except.map, get_chat_history,
      Store.get, get_session_info, session_exists]
  · intro h
    simp [clear_session, h]

open MemoryService in
/-- Witness for C4 at a one-message session and at an absent session. -/
theorem c4_clear_session_witness :
    Except.map (fun st' =>
        (get_chat_history st' "s" 9, get_session_info st' "s" 9,
          session_exists st' "s", Store.get st' "s"))
      (clear_session [("s", ⟨1, "c0", "t0", [LCMessage.human "hi"]⟩)]
        "s" "c1" "t1" false) =
      .ok ([], some ⟨"s", 9, 9, 0⟩, true, some ⟨1, "c1", "t1", []⟩) ∧
    clear_session [] "missing" "c1" "t1" true = .ok [] :=
  ⟨(c4_clear_session [("s", ⟨1, "c0", "t0", [LCMessage.human "hi"]⟩)]
      "s" "c1" "t1" 9 false).1 ⟨1, "c0", "t0", [LCMessage.human "hi"]⟩ rfl,
   (c4_clear_session [] "missing" "c1" "t1" 9 true).2 rfl⟩

open MemoryService in
/-- C5 (counterexample): saving `⟨user, hi, 0⟩` into a nonexistent session
succeeds, but reading the history back at time `1` yields
`⟨user, hi, 1⟩` — the retrieval-time timestamp — so the history is not
exactly `[m]`. -/
theorem c5_counterexample :
    (save_message [] "s" ⟨"user", "hi", 0⟩ "c1" "t1" "c2" "t2"
        false false).toOption.map (fun st' => get_chat_history st' "s" 1) =
      some [⟨"user", "hi", 1⟩] ∧
    [(⟨"user", "hi", 1⟩ : ChatMessage)] ≠ [⟨"user", "hi", 0⟩] := by
  decide

open MemoryService in
/-- C5 (amended): `save_message` on a session with no stored checkpoint
first creates the session and then appends, succeeding rather than
failing; afterwards `session_exists` is true and the history is exactly
one message carrying `m`'s content, `m`'s role collapsed through the
user/assistant conversion, and the retrieval-time timestamp. -/
theorem c5_create_on_write (st : Store) (sid : String) (m : ChatMessage)
    (cid₁ ts₁ cid₂ ts₂ : String) (now : Timestamp)
    (h : Store.get st sid = none) :
    Except.map (fun st' => (session_exists st' sid, get_chat_history st' sid now))
        (save_message st sid m cid₁ ts₁ cid₂ ts₂ false false) =
      .ok (true, [⟨if m.role = "user" then "user" else "assistant",
        m.content, now⟩]) := by
  rw [save_message_absent st sid m cid₁ ts₁ cid₂ ts₂ h]
  show Except.ok _ = _
  simp [session_exists, Store.get, get_chat_history, convert_roundtrip]

open MemoryService in
/-- Witness for C5 (amended) on the empty store. -/
theorem c5_create_on_write_witness :
    Except.map (fun st' => (session_exists st' "s", get_chat_history st' "s" 4))
        (save_message [] "s" ⟨"user", "hello", 2⟩ "c1" "t1" "c2" "t2"
          false false) =
      .ok (true, [⟨"user", "hello", 4⟩]) :=
  (c5_create_on_write [] "s" ⟨"user", "hello", 2⟩ "c1" "t1" "c2" "t2" 4
    rfl).trans (by rfl)

open MemoryService in
/-- C6: when the session already exists and the store write fails,
`save_message` propagates the error after its single unretried put, and
the error carries the store exactly as it was before the call — the
session's message list and checkpoint record are unmodified. -/
theorem c6_save_atomic (st : Store) (sid : String) (m : ChatMessage)
    (cid₁ ts₁ cid₂ ts₂ : String) (fail₁ : Bool) (cp : Checkpoint)
    (h : Store.get st sid = some cp) :
    save_message st sid m cid₁ ts₁ cid₂ ts₂ fail₁ true = .error st := by
  simp [save_message, h, Store.put]

open MemoryService in
/-- Witness for C6 at a concrete one-session store. -/
theorem c6_save_atomic_witness :
    save_message [("s", ⟨1, "c0", "t0", [LCMessage.human "old"]⟩)] "s"
        ⟨"user", "hi", 0⟩ "c1" "t1" "c2" "t2" false true =
      .error [("s", ⟨1, "c0", "t0", [LCMessage.human "old"]⟩)] :=
  c6_save_atomic [("s", ⟨1, "c0", "t0", [LCMessage.human "old"]⟩)] "s"
    ⟨"user", "hi", 0⟩ "c1" "t1" "c2" "t2" false
    ⟨1, "c0", "t0", [LCMessage.human "old"]⟩ rfl

open MemoryService in
/-- C10: the persistence round-trip collapses roles to user/assistant:
after any successful `save_message` of `m`, the last history entry has
role `"user"` exactly when `m.role = "user"` and role `"assistant"` for
every other role string, with `m`'s content. -/
theorem c10_role_collapse (st : Store) (sid : String) (m : ChatMessage)
    (cid₁ ts₁ cid₂ ts₂ : String) (now : Timestamp) :
    Except.map (fun st' => (get_chat_history st' sid now).getLast?)
        (save_message st sid m cid₁ ts₁ cid₂ ts₂ false false) =
      .ok (some ⟨if m.role = "user" then "user" else "assistant",
        m.content, now⟩) := by
  obtain ⟨st', h₁, h₂, _⟩ := save_message_ok_messages st sid m cid₁ ts₁ cid₂ ts₂
  rw [h₁]
  show Except.ok ((get_chat_history st' sid now).getLast?) = _
  rw [get_chat_history_messagesOf, h₂]
  simp [convert_roundtrip]

open LLMService in
/-- C2 (counterexample): on the document QA path the outgoing message list
for context `"doc"` and question `"q"` is the fixed system instruction
followed by a single user turn; it contains exactly one system entry, and
no second system entry carrying the document context. -/
theorem c2_counterexample :
    context_response_messages "doc" "q" =
      [⟨"system", system_prompt⟩, ⟨"user", "Context:\ndoc\n\nQuestion: q"⟩] ∧
    (context_response_messages "doc" "q").countP
        (fun msg => msg.role == "system") = 1 ∧
    (⟨"system", "Context information:\ndoc"⟩ : Msg) ∉
      context_response_messages "doc" "q" := by
  decide

open LLMService in
/-- C2 (amended): the completion client always prepends the fixed system
instruction as the first message, and when `generate_response` receives a
non-`None`, non-empty context string it inserts a second system entry
carrying that text before the conversation history; the document QA path,
however, calls `generate_response` with no extra context and instead
carries the document text inside its single user turn, so its outgoing
list has no second system entry. -/
theorem c2_system_preamble (messages : List Msg) (context : Option String) :
    (formatted_messages messages context).head? =
      some ⟨"system", system_prompt⟩ ∧
    (∀ c, context = some c → c ≠ "" →
      formatted_messages messages context =
        ⟨"system", system_prompt⟩ ::
          ⟨"system", "Context information:\n" ++ c⟩ :: messages) ∧
    (∀ c q, context_response_messages c q =
      [⟨"system", system_prompt⟩, context_user_turn c q]) := by
  refine ⟨rfl, ?_, fun c q => rfl⟩
  rintro c rfl hc
  simp [formatted_messages, context_block, hc]

open LLMService in
/-- Witness for C2 (amended) at a nonempty supplied context. -/
theorem c2_system_preamble_witness :
    (formatted_messages [⟨"user", "hi"⟩] (some "notes")).head? =
      some ⟨"system", system_prompt⟩ ∧
    formatted_messages [⟨"user", "hi"⟩] (some "notes") =
      ⟨"system", system_prompt⟩ ::
        ⟨"system", "Context information:\nnotes"⟩ :: [⟨"user", "hi"⟩] ∧
    context_response_messages "doc" "qq" =
      [⟨"system", system_prompt⟩, context_user_turn "doc" "qq"] :=
  ⟨(c2_system_preamble [⟨"user", "hi"⟩] (some "notes")).1,
   (c2_system_preamble [⟨"user", "hi"⟩] (some "notes")).2.1 "notes" rfl
     (by decide),
   (c2_system_preamble [⟨"user", "hi"⟩] (some "notes")).2.2 "doc" "qq"⟩

open FileService in
/-- C7: an upload that is oversize, or whose extension is outside the
allow-list, yields a 400 from `extract_text`, and the result is the same
for arbitrary text extractors — the extraction step is never consulted,
because the filename, size and extension checks all run first. -/
theorem c7_checks_before_extraction
    (d₁ d₂ : List Nat → Option String)
    (p₁ p₂ : List Nat → Option (List (Option String)))
    (s : Settings) (file : UploadedFile)
    (h : s.upload_max_size < file.bytes.length ∨
      file_extension file.filename ∉ s.allowed_extensions) :
    (extract_text d₁ p₁ s file).status? = some 400 ∧
    extract_text d₁ p₁ s file = extract_text d₂ p₂ s file := by
  by_cases hf : file.filename = ""
  · exact ⟨by simp [extract_text, hf, HttpResult.status?],
      by simp [extract_text, hf]⟩
  · by_cases hs : file.bytes.length > s.upload_max_size
    · exact ⟨by simp [extract_text, hf, hs, HttpResult.status?],
        by simp [extract_text, hf, hs]⟩
    · have hx : file_extension file.filename ∉ s.allowed_extensions := by
        rcases h with h | h
        · omega
        · exact h
      exact ⟨by simp [extract_text, hf, hs, hx, HttpResult.status?],
        by simp [extract_text, hf, hs, hx]⟩

open FileService in
/-- Witness for C7: an oversize `.txt` upload and an allowed-size `.exe`
upload, each checked against two different extractor pairs. -/
theorem c7_checks_before_extraction_witness :
    ((extract_text (fun _ => some "x") (fun _ => some [])
        ⟨3000, 2, ["txt", "pdf"]⟩ ⟨"a.txt", [1, 2, 3]⟩).status? = some 400 ∧
      extract_text (fun _ => some "x") (fun _ => some [])
          ⟨3000, 2, ["txt", "pdf"]⟩ ⟨"a.txt", [1, 2, 3]⟩ =
        extract_text (fun _ => none) (fun _ => none)
          ⟨3000, 2, ["txt", "pdf"]⟩ ⟨"a.txt", [1, 2, 3]⟩) ∧
    ((extract_text (fun _ => some "x") (fun _ => some [])
        settings ⟨"a.exe", [1, 2, 3]⟩).status? = some 400 ∧
      extract_text (fun _ => some "x") (fun _ => some [])
          settings ⟨"a.exe", [1, 2, 3]⟩ =
        extract_text (fun _ => none) (fun _ => none)
          settings ⟨"a.exe", [1, 2, 3]⟩) :=
  ⟨c7_checks_before_extraction (fun _ => some "x") (fun _ => none)
      (fun _ => some []) (fun _ => none) ⟨3000, 2, ["txt", "pdf"]⟩
      ⟨"a.txt", [1, 2, 3]⟩ (Or.inl (by decide)),
   c7_checks_before_extraction (fun _ => some "x") (fun _ => none)
      (fun _ => some []) (fun _ => none) settings
      ⟨"a.exe", [1, 2, 3]⟩ (Or.inr (by decide))⟩

namespace MemoryService

lemma get_chat_history_after_create (st : Store) (sid : String)
    (c t : String) (h : Store.get st sid = none) (sid' : String)
    (now' : Timestamp) :
    get_chat_history ((sid, ⟨1, c, t, []⟩) :: st) sid' now' =
      get_chat_history st sid' now' := by
  by_cases hs : sid = sid'
  · subst hs
    simp [get_chat_history, Store.get, h]
  · simp [get_chat_history, Store.get, hs]

lemma session_exists_none (st : Store) (sid : String)
    (he : ¬ session_exists st sid) : Store.get st sid = none := by
  cases hg : Store.get st sid with
  | none => rfl
  | some cp => exact absurd (by simp [session_exists, hg]) he

end MemoryService

open MemoryService FileService Routes in
/-- C8: when the extracted text of an upload is empty or all whitespace,
the handler answers 400 with the no-text detail, the completion provider
is never consulted, and no message is appended to any session's history
(the create-if-absent step may add an empty session, which leaves every
history unchanged). -/
theorem c8_whitespace_no_provider
    (decode : List Nat → Option String)
    (pdfPages : List Nat → Option (List (Option String)))
    (s : Settings) (provider : List Msg → LLMService.ProviderBehavior)
    (st : Store) (file : UploadedFile) (question : String)
    (session_id : Option String) (fresh_sid : String) (now : Timestamp)
    (cC tC cU₁ tU₁ cU₂ tU₂ cA₁ tA₁ cA₂ tA₂ : String) (failU failA : Bool)
    (text : String)
    (hx : extract_text decode pdfPages s file = .ok text)
    (hw : pyStrip text = "") :
    (upload_file decode pdfPages s provider st file question session_id
        fresh_sid now cC tC cU₁ tU₁ cU₂ tU₂ cA₁ tA₁ cA₂ tA₂
        false failU failA).observable =
      (400, none, some "No text could be extracted from the file.",
        false, none) ∧
    ∀ sid' now',
      get_chat_history (upload_file decode pdfPages s provider st file
          question session_id fresh_sid now cC tC cU₁ tU₁ cU₂ tU₂ cA₁ tA₁
          cA₂ tA₂ false failU failA).store sid' now' =
        get_chat_history st sid' now' := by
  by_cases he : session_exists st (session_id.getD fresh_sid)
  · constructor
    · simp [upload_file, he, hx, hw, UploadResult.observable]
    · intro sid' now'
      simp [upload_file, he, hx, hw]
  · have hget : Store.get st (session_id.getD fresh_sid) = none :=
      session_exists_none st (session_id.getD fresh_sid) he
    constructor
    · simp [upload_file, he, hx, hw, create_session, Store.put,
        UploadResult.observable]
    · intro sid' now'
      simp only [upload_file, he, if_false, Bool.false_eq_true,
        create_session, Store.put, if_neg, hx, hw]
      simp [hx, hw]
      exact get_chat_history_after_create st (session_id.getD fresh_sid)
        cC tC hget sid' now'

open MemoryService FileService Routes in
/-- Witness for C8: an uploaded `.txt` whose decoder yields only spaces,
against the empty store. -/
theorem c8_whitespace_no_provider_witness :
    (upload_file (fun _ => some "  ") (fun _ => none) settings
        (fun _ => LLMService.ProviderBehavior.returns (some "ans")) []
        ⟨"a.txt", []⟩ "q" none "s0" 0 "cC" "tC" "c1" "t1" "c2" "t2" "c3"
        "t3" "c4" "t4" false false false).observable =
      (400, none, some "No text could be extracted from the file.",
        false, none) ∧
    get_chat_history (upload_file (fun _ => some "  ") (fun _ => none)
        settings (fun _ => LLMService.ProviderBehavior.returns (some "ans"))
        [] ⟨"a.txt", []⟩ "q" none "s0" 0 "cC" "tC" "c1" "t1" "c2" "t2" "c3"
        "t3" "c4" "t4" false false false).store "s0" 3 =
      get_chat_history [] "s0" 3 :=
  ⟨(c8_whitespace_no_provider (fun _ => some "  ") (fun _ => none) settings
      (fun _ => LLMService.ProviderBehavior.returns (some "ans")) []
      ⟨"a.txt", []⟩ "q" none "s0" 0 "cC" "tC" "c1" "t1" "c2" "t2" "c3" "t3"
      "c4" "t4" false false "  " (by decide) (by decide)).1,
   (c8_whitespace_no_provider (fun _ => some "  ") (fun _ => none) settings
      (fun _ => LLMService.ProviderBehavior.returns (some "ans")) []
      ⟨"a.txt", []⟩ "q" none "s0" 0 "cC" "tC" "c1" "t1" "c2" "t2" "c3" "t3"
      "c4" "t4" false false "  " (by decide) (by decide)).2 "s0" 3⟩

namespace Routes

open MemoryService FileService LLMService in
lemma save_message_exists_ok (st : Store) (sid : String) (m : ChatMessage)
    (c₁ t₁ c₂ t₂ : String) (cp : Checkpoint)
    (h : Store.get st sid = some cp) :
    ∃ st' cp', MemoryService.save_message st sid m c₁ t₁ c₂ t₂ false false =
        .ok st' ∧ Store.get st' sid = some cp' := by
  refine ⟨_, ⟨cp.v, c₂, t₂,
      cp.messages ++ [MemoryService.convert_to_langchain_message m]⟩,
    MemoryService.save_message_existing st sid m c₁ t₁ c₂ t₂ cp h, ?_⟩
  simp [Store.get]

open MemoryService FileService LLMService in
lemma upload_observable_eq
    (decode : List Nat → Option String)
    (pdfPages : List Nat → Option (List (Option String)))
    (s : Settings) (provider : List Msg → ProviderBehavior)
    (st : Store) (file : UploadedFile) (question : String)
    (session_id : Option String) (fresh_sid : String) (now : Timestamp)
    (cC tC cU₁ tU₁ cU₂ tU₂ cA₁ tA₁ cA₂ tA₂ : String) :
    (upload_file decode pdfPages s provider st file question session_id
        fresh_sid now cC tC cU₁ tU₁ cU₂ tU₂ cA₁ tA₁ cA₂ tA₂
        false false false).observable =
      upload_outcome decode pdfPages s provider file question := by
  obtain ⟨st₁, h₁, cp₁, hcp₁⟩ : ∃ st₁,
      (if MemoryService.session_exists st (session_id.getD fresh_sid) then
          Except.ok st
        else MemoryService.create_session st (session_id.getD fresh_sid)
          cC tC false) = .ok st₁ ∧
      ∃ cp₁, Store.get st₁ (session_id.getD fresh_sid) = some cp₁ := by
    by_cases he : MemoryService.session_exists st (session_id.getD fresh_sid)
    · rcases hg : Store.get st (session_id.getD fresh_sid) with _ | cp
      · rw [session_exists, hg] at he
        simp at he
      · exact ⟨st, by simp [he], cp, hg⟩
    · refine ⟨(session_id.getD fresh_sid, ⟨1, cC, tC, []⟩) :: st,
        by simp [he, create_session, Store.put], ⟨1, cC, tC, []⟩, ?_⟩
      simp [Store.get]
  cases hx : extract_text decode pdfPages s file with
  | httpError code d =>
      simp [upload_file, h₁, hx, upload_outcome, UploadResult.observable]
  | ok text =>
    by_cases hw : pyStrip text = ""
    · simp [upload_file, h₁, hx, hw, upload_outcome, UploadResult.observable]
    · obtain ⟨st₂, cp₂, hsu, hcp₂⟩ := save_message_exists_ok st₁
        (session_id.getD fresh_sid)
        ⟨"user", "[Uploaded file: " ++ file.filename ++ "] " ++ question, now⟩
        cU₁ tU₁ cU₂ tU₂ cp₁ hcp₁
      cases hg : generate_context_response provider
          (truncate_context s text) question with
      | httpError code d =>
          simp [upload_file, h₁, hx, hw, hsu, hg, upload_outcome,
            UploadResult.observable]
      | ok content =>
          obtain ⟨st₃, cp₃, hsa, _⟩ := save_message_exists_ok st₂
            (session_id.getD fresh_sid) ⟨"assistant", content, now⟩
            cA₁ tA₁ cA₂ tA₂ cp₂ hcp₂
          simp [upload_file, h₁, hx, hw, hsu, hg, hsa, upload_outcome,
            UploadResult.observable]

end Routes

open MemoryService FileService LLMService Routes in
/-- C9: with reliable store writes, the upload handler's observable
outcome — status, answer, error detail, whether the provider was called
and with which message list — is the same for any two starting stores, in
particular for any two prior contents of the session; and whenever the
extracted text is non-whitespace, the message list sent to the provider
is the fixed system instruction plus exactly one user turn built from the
truncated document text and the question. -/
theorem c9_upload_history_independent
    (decode : List Nat → Option String)
    (pdfPages : List Nat → Option (List (Option String)))
    (s : Settings) (provider : List Msg → ProviderBehavior)
    (st₁ st₂ : Store) (file : UploadedFile) (question : String)
    (session_id : Option String) (fresh_sid : String) (now : Timestamp)
    (cC tC cU₁ tU₁ cU₂ tU₂ cA₁ tA₁ cA₂ tA₂ : String) :
    (upload_file decode pdfPages s provider st₁ file question session_id
        fresh_sid now cC tC cU₁ tU₁ cU₂ tU₂ cA₁ tA₁ cA₂ tA₂
        false false false).observable =
      (upload_file decode pdfPages s provider st₂ file question session_id
        fresh_sid now cC tC cU₁ tU₁ cU₂ tU₂ cA₁ tA₁ cA₂ tA₂
        false false false).observable ∧
    ∀ text, extract_text decode pdfPages s file = .ok text →
      pyStrip text ≠ "" →
      (upload_file decode pdfPages s provider st₁ file question session_id
          fresh_sid now cC tC cU₁ tU₁ cU₂ tU₂ cA₁ tA₁ cA₂ tA₂
          false false false).provider_messages =
        some [⟨"system", system_prompt⟩,
          context_user_turn (truncate_context s text) question] := by
  constructor
  · rw [upload_observable_eq, upload_observable_eq]
  · intro text hx hw
    have h : (upload_file decode pdfPages s provider st₁ file question
        session_id fresh_sid now cC tC cU₁ tU₁ cU₂ tU₂ cA₁ tA₁ cA₂ tA₂
        false false false).provider_messages =
        (upload_outcome decode pdfPages s provider file question).2.2.2.2 :=
      congrArg (fun x => x.2.2.2.2)
        (upload_observable_eq decode pdfPages s provider st₁ file question
          session_id fresh_sid now cC tC cU₁ tU₁ cU₂ tU₂ cA₁ tA₁ cA₂ tA₂)
    rw [h]
    cases hg : generate_context_response provider
        (truncate_context s text) question with
    | httpError code d =>
        simp [upload_outcome, hx, hw, hg, context_response_messages,
          formatted_messages, context_block]
    | ok content =>
        simp [upload_outcome, hx, hw, hg, context_response_messages,
          formatted_messages, context_block]

open MemoryService FileService LLMService Routes in
/-- Witness for C9: the same upload against the empty store and against a
store already holding a conversation in the target session. -/
theorem c9_upload_history_independent_witness :
    (upload_file (fun _ => some "hello") (fun _ => none) settings
        (fun _ => ProviderBehavior.returns (some "ans")) []
        ⟨"a.txt", []⟩ "q" (some "s") "s0" 0 "cC" "tC" "c1" "t1" "c2" "t2"
        "c3" "t3" "c4" "t4" false false false).observable =
      (upload_file (fun _ => some "hello") (fun _ => none) settings
        (fun _ => ProviderBehavior.returns (some "ans"))
        [("s", ⟨1, "c", "t", [LCMessage.human "old"]⟩)]
        ⟨"a.txt", []⟩ "q" (some "s") "s0" 0 "cC" "tC" "c1" "t1" "c2" "t2"
        "c3" "t3" "c4" "t4" false false false).observable ∧
    (upload_file (fun _ => some "hello") (fun _ => none) settings
        (fun _ => ProviderBehavior.returns (some "ans")) []
        ⟨"a.txt", []⟩ "q" (some "s") "s0" 0 "cC" "tC" "c1" "t1" "c2" "t2"
        "c3" "t3" "c4" "t4" false false false).provider_messages =
      some [⟨"system", system_prompt⟩,
        context_user_turn (truncate_context settings "hello") "q"] :=
  ⟨(c9_upload_history_independent (fun _ => some "hello") (fun _ => none)
      settings (fun _ => ProviderBehavior.returns (some "ans")) []
      [("s", ⟨1, "c", "t", [LCMessage.human "old"]⟩)] ⟨"a.txt", []⟩ "q"
      (some "s") "s0" 0 "cC" "tC" "c1" "t1" "c2" "t2" "c3" "t3" "c4"
      "t4").1,
   (c9_upload_history_independent (fun _ => some "hello") (fun _ => none)
      settings (fun _ => ProviderBehavior.returns (some "ans")) []
      [("s", ⟨1, "c", "t", [LCMessage.human "old"]⟩)] ⟨"a.txt", []⟩ "q"
      (some "s") "s0" 0 "cC" "tC" "c1" "t1" "c2" "t2" "c3" "t3" "c4"
      "t4").2 "hello" (by decide) (by decide)⟩

end ChatApp
